import Mathlib

/-!
# Verification of the filplus-checker report pipeline

A shallow embedding of the `CidChecker` class (src/unnamed/part_001) of
fidlabs/filplus-checker.  JavaScript numbers (IEEE doubles obtained via
`parseFloat`/`Number` on decimal strings) are modelled as exact rationals
(`ℚ`); JS `NaN` is modelled as `Option.none` where it can arise from
parsing.  Fallible external collaborators (HTTP, RPC) are modelled as
`Except Unit`-valued inputs; an exhausted retry budget is an `Except.error`.
Stateful pieces (the process-lifetime cache, the two accumulating report
documents) are modelled by explicit state passing.
-/

namespace FilplusChecker

/-- JS digit-run to natural number accumulator. -/
def digitsToNat (cs : List Char) : Nat :=
  cs.foldl (fun a c => a * 10 + (c.toNat - 48)) 0

/-- Model of JS `parseInt(s)` (base 10): skip leading whitespace, optional
sign, then the longest run of leading decimal digits; `none` models `NaN`
(no digits).  Used by `findApplicationInfoForClient` on
`initialAllowance` strings (part_001 line 298). -/
def parseIntJS (s : String) : Option Int :=
  let cs := s.data.dropWhile (·.isWhitespace)
  let signAndRest : Int × List Char :=
    match cs with
    | '-' :: rest => (-1, rest)
    | '+' :: rest => (1, rest)
    | _ => (1, cs)
  let ds := signAndRest.2.takeWhile (·.isDigit)
  if ds.isEmpty then none else some (signAndRest.1 * digitsToNat ds)

/-- Model of JS `parseFloat(s)` restricted to optional sign, decimal digits
and an optional fractional part; `none` models `NaN`.  Used on the
`loc` field of ipinfo responses (part_001 lines 545-546). -/
def parseFloatJS (s : String) : Option ℚ :=
  let cs := s.data.dropWhile (·.isWhitespace)
  let signAndRest : ℚ × List Char :=
    match cs with
    | '-' :: rest => (-1, rest)
    | '+' :: rest => (1, rest)
    | _ => (1, cs)
  let intPart := signAndRest.2.takeWhile (·.isDigit)
  let rest := signAndRest.2.dropWhile (·.isDigit)
  let fracPart : List Char :=
    match rest with
    | '.' :: r => r.takeWhile (·.isDigit)
    | _ => []
  if intPart.isEmpty && fracPart.isEmpty then none
  else some (signAndRest.1 *
    ((digitsToNat intPart : ℚ) + (digitsToNat fracPart : ℚ) / (10 ^ fracPart.length)))

/-- Model of JS `String.prototype.split(sep)` for a one-character
separator, on the character list of the string. -/
def splitOnChar (sep : Char) : List Char → List (List Char)
  | [] => [[]]
  | c :: cs =>
    let rest := splitOnChar sep cs
    if c = sep then [] :: rest
    else match rest with
      | [] => [[c]]
      | r :: rs => (c :: r) :: rs

/-- JS comparison `x > y` on two `parseInt` results: any `NaN` operand
makes the comparison false. -/
def jsGT (a b : Option Int) : Bool :=
  match a, b with
  | some x, some y => x > y
  | _, _ => false

/-! ## Markdown helpers

`wrapInCode`, `generateLink` and `escape` come from `./MarkdownUtils`,
which is not among the provided sources. -/

/-- Modelled from the spec: `wrapInCode` of the absent MarkdownUtils
module; renders text as inline markdown code (the source's own literals,
e.g. the `` `new` `` marker on part_001 line 647, fix the backtick
convention). -/
def wrapInCode (s : String) : String := "`" ++ s ++ "`"

/-- Modelled from the spec: `generateLink` of the absent MarkdownUtils
module; renders a markdown inline link. -/
def generateLink (text url : String) : String := "[" ++ text ++ "](" ++ url ++ ")"

/-! ## Data model (src/unnamed/part_001 `Types` import and class body) -/

/-- One entry of the `allowanceArray` of a verified-client record returned
by datacapstats.io. -/
structure Allowance where
  auditTrail : Option String
  initialAllowance : String
deriving DecidableEq, Repr

/-- One verified-client record of `GetVerifiedClientResponse.data`. -/
structure VerifiedClient where
  name : Option String
  orgName : Option String
  verifierName : String
  initialAllowance : String
  allowanceArray : List Allowance
deriving DecidableEq, Repr

/-- `ApplicationInfo` as assembled by `findApplicationInfoForClient`
(part_001 lines 299-306). -/
structure ApplicationInfo where
  clientAddress : String
  organizationName : String
  url : Option String
  verifier : String
  issueNumber : Option String
  numberOfAllocations : Nat
deriving DecidableEq, Repr

/-- A rule tier (`Criteria` interface, part_001 lines 52-57). -/
structure Criteria where
  maxProviderDealPercentage : ℚ
  maxDuplicationPercentage : ℚ
  lowReplicaThreshold : Nat
  maxPercentageForLowReplica : ℚ
deriving DecidableEq, Repr

/-- A row of the `provider_distribution` query with the in-place
`percentage` field added by `getStorageProviderDistribution`.  The
`total_deal_size`/`unique_data_size` decimal strings are modelled by the
rational value `parseFloat` yields on them. -/
structure ProviderDistribution where
  provider : String
  total_deal_size : ℚ
  unique_data_size : ℚ
  duplication_percentage : ℚ
  percentage : ℚ
deriving DecidableEq, Repr

/-- A resolved geographic location (part_001 lines 541-548).  JS `NaN`
coordinates (unparseable `loc` parts) are conflated with `undefined`. -/
structure Location where
  city : Option String
  country : Option String
  region : Option String
  latitude : Option ℚ
  longitude : Option ℚ
  orgName : String
deriving DecidableEq, Repr

/-- `ProviderDistributionWithLocation`: the spread
`{ ...item, ...location, new: isNew }` of part_001 line 620. -/
structure ProviderDistributionWithLocation extends ProviderDistribution where
  city : Option String
  region : Option String
  country : Option String
  latitude : Option ℚ
  longitude : Option ℚ
  orgName : Option String
  new : Bool
deriving DecidableEq, Repr

/-- A row of the `replica_distribution` query with the in-place
`percentage` field added by `getReplicationDistribution`. -/
structure ReplicationDistribution where
  num_of_replicas : Nat
  total_deal_size : ℚ
  unique_data_size : ℚ
  percentage : ℚ
deriving DecidableEq, Repr

/-- A joined per-provider retrievability entry (`Retrievability`),
built by `createRetrievability`. -/
structure Retrievability where
  provider_id : String
  success_rate : ℚ
  total_deal_size : ℚ
deriving DecidableEq, Repr

/-- One record of the Spark success-rate summary
(`fetchRetrievalSuccessRate`). -/
structure SparkSuccessRate where
  miner_id : String
  success_rate : ℚ
deriving DecidableEq, Repr

/-- A rendered provider table row (`ProviderDistributionRow`),
part_001 lines 634-655. -/
structure ProviderDistributionRow where
  provider : String
  totalDealSize : String
  uniqueDataSize : String
  location : String
  percentage : String
  duplicatePercentage : String
  retrievability : String
deriving DecidableEq, Repr

/-- A rendered replication table row (`ReplicationDistributionRow`),
part_001 lines 657-666. -/
structure ReplicationDistributionRow where
  numOfReplica : Nat
  totalDealSize : String
  uniqueDataSize : String
  percentage : String
deriving DecidableEq, Repr

/-- A rendered CID-sharing table row (`CidSharingRow`), part_001
lines 668-684; assembled before the document-building section, so the
document model takes the finished rows as input. -/
structure CidSharingRow where
  otherClientAddress : String
  totalDealSize : String
  uniqueCidCount : String
  otherClientOrganizationName : String
  verifier : String
deriving DecidableEq, Repr

/-- A `providers` table row used for the `new`-provider marker
(`getFirstClientByProviders`). -/
structure FirstClientRow where
  provider : String
  first_client : String
deriving DecidableEq, Repr

/-- Miner info returned by `Filecoin.StateMinerInfo` (`getMinerInfo`);
only the `Multiaddrs` field is consumed. -/
structure MinerInfo where
  Multiaddrs : Option (List String)
deriving DecidableEq, Repr

/-- An ipinfo.io response (`IpInfoResponse`), as consumed by
`getLocation` (part_001 lines 531-549). -/
structure IpInfoResponse where
  bogon : Option Bool
  city : Option String
  country : Option String
  region : Option String
  loc : Option String
  org : Option String
deriving DecidableEq, Repr

/-- A `generated_reports` row as consumed by
`getLatestClientGeneratedReport` (only `file_path` is read). -/
structure GeneratedReportRow where
  file_path : String
deriving DecidableEq, Repr

/-! ## ApplicationInfoResolver (part_001 lines 285-309) -/

/-- The `primary` record selection of `findApplicationInfoForClient`
(part_001 line 298):
`data.reduce((prev, curr) => parseInt(prev.initialAllowance) > parseInt(curr.initialAllowance) ? prev : curr)`.
JS `reduce` without an initial value starts from the first element. -/
def selectPrimary (data : List VerifiedClient) : Option VerifiedClient :=
  match data with
  | [] => none
  | h :: t =>
    some (t.foldl (fun prev curr =>
      if jsGT (parseIntJS prev.initialAllowance) (parseIntJS curr.initialAllowance)
      then prev else curr) h)

/-- The `result` record of `findApplicationInfoForClient`
(part_001 lines 299-306). -/
def mkApplicationInfo (client : String) (primary : VerifiedClient) : ApplicationInfo :=
  { clientAddress := client
    organizationName := (primary.name.getD "") ++ (primary.orgName.getD "")
    url := (primary.allowanceArray.head?).bind (·.auditTrail)
    verifier := primary.verifierName
    issueNumber := ((primary.allowanceArray.head?).bind (·.auditTrail)).map
      (fun s => String.mk ((splitOnChar '/' s.data).getLastD []))
    numberOfAllocations := primary.allowanceArray.length }

/-- The process-lifetime `issueApplicationInfoCache` (part_001 line 74),
a JS `Map` modelled as an association list in insertion order. -/
abbrev AppInfoCache := List (String × Option ApplicationInfo)

/-- JS `Map.prototype.set`: overwrite an existing key in place, else
append. -/
def cacheSet (cache : AppInfoCache) (k : String) (v : Option ApplicationInfo) : AppInfoCache :=
  if (cache.find? (fun e => e.1 == k)).isSome
  then cache.map (fun e => if e.1 == k then (k, v) else e)
  else cache ++ [(k, v)]

/-- `findApplicationInfoForClient` (part_001 lines 285-309).  The upstream
datacapstats.io lookup is the pure input `fetch`; the returned triple is
(result, cache after the call, number of upstream HTTP calls made). -/
def findApplicationInfoForClient (cache : AppInfoCache)
    (fetch : String → List VerifiedClient) (client : String) :
    Option ApplicationInfo × AppInfoCache × Nat :=
  match cache.find? (fun e => e.1 == client) with
  | some e => (e.2, cache, 0)
  | none =>
    let data := fetch client
    match selectPrimary data with
    | none => (none, cacheSet cache client none, 1)
    | some primary =>
      let result := mkApplicationInfo client primary
      (some result, cacheSet cache client (some result), 1)

/-! ## Tier selection (part_001 lines 587-604) -/

/-- The tier selection of `check` (part_001 line 604):
`criterias.length > allocations - 1 ? criterias[allocations - 1] : criterias[criterias.length - 1]`. -/
def selectCriteria (criterias : List Criteria) (allocations : Nat) : Option Criteria :=
  if criterias.length > allocations - 1
  then criterias[allocations - 1]?
  else criterias[criterias.length - 1]?

/-- `isEarlyAllocation` (part_001 line 588). -/
def isEarlyAllocation (criterias : List Criteria) (allocations : Nat) : Bool :=
  criterias.length > allocations

/-! ## DistributionAggregator: provider distribution (part_001 lines 131-143) -/

/-- The total used to normalize provider percentages
(part_001 line 137): `reduce((acc, cur) => acc + parseFloat(cur.total_deal_size), 0)`. -/
def totalDealSize (rows : List ProviderDistribution) : ℚ :=
  rows.foldl (fun acc cur => acc + cur.total_deal_size) 0

/-- `getStorageProviderDistribution` after the query: sets each row's
`percentage` to `total_deal_size / total` (part_001 lines 137-140).
(When the total is 0 the JS value is `NaN`; in ℚ, division by zero
yields 0 — no claim depends on that case's numeric value.) -/
def getStorageProviderDistribution (rows : List ProviderDistribution) :
    List ProviderDistribution :=
  let total := totalDealSize rows
  rows.map (fun d => { d with percentage := d.total_deal_size / total })

/-- The "no active deals" guard of `check` (part_001 lines 630-632):
fires iff the aggregated provider list is empty. -/
def noActiveDealsGuard (providerDistributions : List ProviderDistributionWithLocation) : Bool :=
  providerDistributions.length == 0

/-! ## RetrievabilityAggregator (part_001 lines 949-1003) -/

/-- `calculateAvgProviderScore` (part_001 lines 971-983): deal-size
weighted average success rate, with an explicit 0 result if either
accumulated total is 0.  The accumulator object
`{ totalClientDealSize, totalSuccessRate }` is modelled as a pair. -/
def calculateAvgProviderScore (matchedRetrievability : List Retrievability) : ℚ :=
  let acc := matchedRetrievability.foldl
    (fun acc r => (acc.1 + r.total_deal_size, acc.2 + r.success_rate * r.total_deal_size))
    ((0 : ℚ), (0 : ℚ))
  if acc.2 = 0 ∨ acc.1 = 0 then 0 else acc.2 / acc.1

/-- The spec's formula for the weighted average:
`Σ(successRate_i × totalDealSize_i) / Σ(totalDealSize_i)`; in ℚ a zero
denominator yields 0, exactly the spec's convention. -/
def weightedAvgSpec (l : List Retrievability) : ℚ :=
  (l.map (fun r => r.success_rate * r.total_deal_size)).sum /
    (l.map (fun r => r.total_deal_size)).sum

/-- `createRetrievability` (part_001 lines 985-1003): inner join of the
client's providers with the Spark data by provider id
(`.map(...).filter(isNotEmpty)` is `filterMap`). -/
def createRetrievability (providerDistributions : List ProviderDistributionWithLocation)
    (sparkData : List SparkSuccessRate) : List Retrievability :=
  providerDistributions.filterMap (fun d =>
    match sparkData.find? (fun x => x.miner_id == d.provider) with
    | none => none
    | some sparkItem => some
        { provider_id := sparkItem.miner_id
          success_rate := sparkItem.success_rate
          total_deal_size := d.total_deal_size })

/-- `providersRetrievability` (part_001 lines 949-968) after the window
computation: the Spark fetch outcome is the `Except` input; any fetch
failure and the empty join both degrade to `([], 0)`. -/
def providersRetrievabilityResult
    (providerDistributions : List ProviderDistributionWithLocation)
    (sparkData : Except Unit (List SparkSuccessRate)) :
    List Retrievability × ℚ :=
  match sparkData with
  | .error _ => ([], 0)
  | .ok sd =>
    let retrievability := createRetrievability providerDistributions sd
    if retrievability.length = 0 then ([], 0)
    else (retrievability, calculateAvgProviderScore retrievability)

/-- The guard of the RETRIEVABILITY_BELOW_THRESHOLD warning
(part_001 line 817):
`(retrievability.length > 0) && avgProviderScore < retrievabilityThreshold`. -/
def retrievabilityBelowThresholdWarning (retrievability : List Retrievability)
    (avgProviderScore retrievabilityThreshold : ℚ) : Bool :=
  decide (retrievability.length > 0) && decide (avgProviderScore < retrievabilityThreshold)

/-- The default `retrievabilityThreshold` of `check`
(part_001 line 571): the double 0.2, i.e. the decimal value 1/5 in the
rational model. -/
def defaultRetrievabilityThreshold : ℚ := 1/5

/-! ## Location resolution (part_001 lines 515-551)

`getLocation` chains three collaborators: `getMinerInfo` (RPC),
`getIpFromMultiaddr` (DNS) and ipinfo.io (HTTP).  Each is a pure
`Except`-valued input; `.error` models an exception escaping the call
(for the retried calls: an exhausted retry budget). -/

/-- The external collaborators consulted by `getLocation` for one
provider. -/
structure LocationEnv where
  minerInfo : Except Unit MinerInfo
  ipFromMultiaddr : String → Except Unit (List String)
  ipinfo : String → Except Unit IpInfoResponse

/-- The ip-collection loop of `getLocation` (part_001 lines 520-530):
each `getIpFromMultiaddr` call is inside `try/catch`, and a caught
failure makes the whole `getLocation` return `null` — modelled as a
`none` overall result. -/
def collectIps (env : LocationEnv) : List String → Option (List String)
  | [] => some []
  | multiAddr :: rest =>
    match env.ipFromMultiaddr multiAddr with
    | .error _ => none
    | .ok ips => (collectIps env rest).map (fun tail => ips ++ tail)

/-- The `Location` object built from an ipinfo response
(part_001 lines 541-548).  Unparseable coordinates (JS `NaN`) are
conflated with `undefined`. -/
def locFromIpInfo (data : IpInfoResponse) : Location :=
  { city := data.city
    country := data.country
    region := data.region
    latitude := data.loc.bind (fun l => parseFloatJS (String.mk ((splitOnChar ',' l.data).headD [])))
    longitude := data.loc.bind (fun l =>
      ((splitOnChar ',' l.data)[1]?).bind (fun p => parseFloatJS (String.mk p)))
    orgName :=
      match data.org with
      | some o => String.intercalate " " ((String.mk <$> splitOnChar ' ' o.data).drop 1)
      | none => "Unknown" }

/-- The ip-probing loop of `getLocation` (part_001 lines 531-549): the
ipinfo call is *not* inside a `try/catch`, so its failure escapes
`getLocation`; a `bogon` response skips to the next ip. -/
def probeIps (env : LocationEnv) : List String → Except Unit (Option Location)
  | [] => .ok none
  | ip :: rest => do
    let data ← env.ipinfo ip
    if data.bogon = some true then probeIps env rest
    else return some (locFromIpInfo data)

/-- `getLocation` (part_001 lines 515-551).  Failure modes:
`.error` when `getMinerInfo` or an ipinfo lookup throws (these are not
caught inside `getLocation`); `.ok none` when the miner has no
multiaddrs, a multiaddr fails to resolve (caught), or every ip is a
bogon. -/
def getLocation (env : LocationEnv) : Except Unit (Option Location) := do
  let minerInfo ← env.minerInfo
  match minerInfo.Multiaddrs with
  | none => return none
  | some addrs =>
    if addrs.length = 0 then return none
    else
      match collectIps env addrs with
      | none => return none
      | some ips => probeIps env ips

/-! ## Provider aggregation inside `check` (part_001 lines 609-622) -/

/-- The `isNew` flag (part_001 line 619):
`clientIds.includes(firstClientByProvider.find(row => row.provider === item.provider)?.first_client ?? '')`. -/
def isNewOf (firstClientByProvider : List FirstClientRow) (clientIds : List String)
    (item : ProviderDistribution) : Bool :=
  clientIds.contains
    (((firstClientByProvider.find? (fun row => row.provider == item.provider)).map
      (fun row => row.first_client)).getD "")

/-- The object spread `{ ...item, ...location, new: isNew }`
(part_001 line 620): with a `null` location every location field is
`undefined`. -/
def mkWithLocation (item : ProviderDistribution) (location : Option Location)
    (isNew : Bool) : ProviderDistributionWithLocation :=
  { toProviderDistribution := item
    city := location.bind (fun l => l.city)
    region := location.bind (fun l => l.region)
    country := location.bind (fun l => l.country)
    latitude := location.bind (fun l => l.latitude)
    longitude := location.bind (fun l => l.longitude)
    orgName := location.map (fun l => l.orgName)
    new := isNew }

/-- The sequential per-provider loop of `check` (part_001 lines 616-621):
the `getLocation` call is not guarded, so its exception rejects the whole
aggregation at the first failing provider. -/
def aggregateProvidersRaw (locEnv : String → LocationEnv)
    (firstClientByProvider : List FirstClientRow) (clientIds : List String) :
    List ProviderDistribution → Except Unit (List ProviderDistributionWithLocation)
  | [] => .ok []
  | item :: rest => do
    let location ← getLocation (locEnv item.provider)
    let isNew := isNewOf firstClientByProvider clientIds item
    let tail ← aggregateProvidersRaw locEnv firstClientByProvider clientIds rest
    return mkWithLocation item location isNew :: tail

/-- The presentation comparator of part_001 line 622:
`(a, b) => a.orgName?.localeCompare(b.orgName ?? '') ?? 0`, as a
"not greater" boolean; `localeCompare` is modelled as code-point order,
and a missing `a.orgName` gives comparator value 0 (not greater). -/
def orgNameLe (a b : ProviderDistributionWithLocation) : Bool :=
  match a.orgName with
  | none => true
  | some s => s ≤ b.orgName.getD ""

/-- The aggregated, presentation-ordered provider list of `check`
(part_001 lines 609-622): empty when the distribution query returned no
providers (lines 612-614), otherwise the located entries sorted by
organization name.  JS `Array.prototype.sort` is modelled as a stable
insertion sort with the same comparator. -/
def aggregateProviders (locEnv : String → LocationEnv)
    (firstClientByProvider : List FirstClientRow) (clientIds : List String)
    (rows : List ProviderDistribution) :
    Except Unit (List ProviderDistributionWithLocation) :=
  if rows.length = 0 then .ok []
  else (aggregateProvidersRaw locEnv firstClientByProvider clientIds rows).map
    (fun withLocations => withLocations.insertionSort (fun a b => orgNameLe a b = true))

/-! ## Rendered provider rows (part_001 lines 634-655) -/

/-- The external rendering collaborators of the document-assembly section
of `check`: libraries absent from the provided sources (`xbytes`,
`node-emoji`, `ordinal`, `Number.prototype.toFixed`,
`toLocaleString`), the MarkdownUtils `escape` and `generateGfmTable`
helpers, the wall clock, and the two uploaded artifact URLs. -/
structure RenderEnv where
  emojiGet : String → String
  escape : String → String
  xbytesIec : ℚ → String
  ordinal : Nat → String
  toFixed0 : ℚ → String
  toFixed2 : ℚ → String
  nowHeader : String
  providerTable : List ProviderDistributionRow → String
  replicaTable : List ReplicationDistributionRow → String
  cidTable : List CidSharingRow → String
  providerDistributionImageUrl : String
  replicationDistributionImageUrl : String
  contentUrl : String

/-- The rendered location string of a provider row
(part_001 lines 637-640): the non-empty location components joined by
", ", or "Unknown" when all are missing/empty (JS `filter(x => x)` drops
both `undefined` and `''`). -/
def renderLocation (d : ProviderDistributionWithLocation) : String :=
  let location := String.intercalate ", "
    (([d.city, d.region, d.country].filterMap id).filter (fun x => x ≠ ""))
  if location = "" then "Unknown" else location

/-- One `ProviderDistributionRow` (part_001 lines 634-655); note the
`location` cell appends the code-wrapped organization name
(line 650). -/
def mkProviderDistributionRow (env : RenderEnv) (retrievability : List Retrievability)
    (distribution : ProviderDistributionWithLocation) : ProviderDistributionRow :=
  let location := renderLocation distribution
  let orgName := distribution.orgName.getD "Unknown"
  let retrievabilitySuccessRate :=
    match retrievability.find? (fun item => item.provider_id == distribution.provider) with
    | some matched => env.toFixed2 (matched.success_rate * 100) ++ "%"
    | none => "-"
  { provider := generateLink distribution.provider
        ("https://filfox.info/en/address/" ++ distribution.provider) ++
      (if distribution.new then "`new` " else "")
    totalDealSize := env.xbytesIec distribution.total_deal_size
    uniqueDataSize := env.xbytesIec distribution.unique_data_size
    location := location ++ "<br/>" ++ wrapInCode orgName
    percentage := env.toFixed2 (distribution.percentage * 100) ++ "%"
    duplicatePercentage := env.toFixed2 (distribution.duplication_percentage * 100) ++ "%"
    retrievability := retrievabilitySuccessRate }

/-- One `ReplicationDistributionRow` (part_001 lines 657-666). -/
def mkReplicationDistributionRow (env : RenderEnv)
    (distribution : ReplicationDistribution) : ReplicationDistributionRow :=
  { numOfReplica := distribution.num_of_replicas
    totalDealSize := env.xbytesIec distribution.total_deal_size
    uniqueDataSize := env.xbytesIec distribution.unique_data_size
    percentage := env.toFixed2 (distribution.percentage * 100) ++ "%" }

/-- The SINGLE_REGION guard (part_001 line 788):
`new Set(providerDistributionRows.map(row => row.location)).size <= 1`. -/
def singleRegionCondition (providerDistributionRows : List ProviderDistributionRow) : Bool :=
  (providerDistributionRows.map (fun row => row.location)).dedup.length ≤ 1

/-! ## Small renderers used by the document section -/

/-- The ≤41-character chunking of `linkifyAddress`
(part_001 line 313): `address.match(/.{1,41}/g)`. -/
def chunk41 : List Char → List String
  | [] => []
  | c :: cs => String.mk ((c :: cs).take 41) :: chunk41 ((c :: cs).drop 41)
  termination_by l => l.length
  decreasing_by simp; omega

/-- `linkifyAddress` (part_001 lines 311-314).  (For the empty address the
JS regexp match is `null` and the source would crash; the model renders an
empty chunk list instead — no claim touches that case.) -/
def linkifyAddress (address : String) : String :=
  "[" ++ String.intercalate "<br/>" (chunk41 address.data) ++
    "](https://filfox.info/en/address/" ++ address ++ ")"

/-- `linkifyApplicationInfo` (part_001 lines 316-322). -/
def linkifyApplicationInfo (escape : String → String) :
    Option ApplicationInfo → String
  | none => "Unknown"
  | some applicationInfo =>
    match applicationInfo.url with
    | some url => "[" ++ escape applicationInfo.organizationName ++ "](" ++ url ++ ")"
    | none => wrapInCode applicationInfo.organizationName

/-- `renderApprovers` (part_001 lines 357-359). -/
def renderApprovers (approvers : List (String × Nat)) : String :=
  String.intercalate "<br/>"
    (approvers.map (fun nc => wrapInCode (toString nc.2) ++ nc.1))

/-! ## The address-group mutation of `check` (part_001 lines 574-596)

`const addressGroup = otherAddresses` (line 593) binds the caller's
array by reference, and `push` (line 595) mutates it in place.  Control
reaches that push only past three early error returns: an unparseable
issue address (lines 578-580), an unresolved application info
(lines 582-584), and `allocations === 0` (lines 589-591); on those paths
`check` returns with `otherAddresses` untouched.  No statement after
line 596 writes the array, so the value formed below at line 596 (or
the untouched input on an early return) is the caller-visible content of
`otherAddresses` once `check` returns. -/

/-- Part_001 lines 593-596 only: the address-group formation executed
once control reaches line 593 — append the resolved client address to
the caller's `otherAddresses` array unless already present. -/
def addressGroupAfterCheck (otherAddresses : List String) (clientAddress : String) :
    List String :=
  if otherAddresses.contains clientAddress then otherAddresses
  else otherAddresses ++ [clientAddress]

/-- The caller-visible content of `otherAddresses` after `check`
returns (part_001 lines 574-596): the parsed issue address
(`getClientAddress`, line 577) is the `address` input; each early
return preceding the line-595 push leaves the array untouched. -/
def checkOtherAddressesAfter (address : Option String) (cache : AppInfoCache)
    (fetch : String → List VerifiedClient) (otherAddresses : List String) :
    List String :=
  match address with
  | none => otherAddresses
  | some addr =>
    match (findApplicationInfoForClient cache fetch addr).1 with
    | none => otherAddresses
    | some applicationInfo =>
      if applicationInfo.numberOfAllocations = 0 then otherAddresses
      else addressGroupAfterCheck otherAddresses applicationInfo.clientAddress

/-! ## Document assembly (part_001 lines 699-918)

The two accumulating arrays `content` and `summary` and the `pushBoth`
helper are modelled as a single ordered event list; `content` is the
sequence of strings pushed to `content` (events `both` and
`contentOnly`), `summary` the sequence pushed to `summary` (events
`both` and `summaryOnly`). -/

/-- One push of the document-assembly section: `pushBoth(s)`,
`content.push(s)` or `summary.push(s)`. -/
inductive Emit where
  | both (s : String)
  | contentOnly (s : String)
  | summaryOnly (s : String)
deriving DecidableEq, Repr

/-- Projection of an event on the `content` array. -/
def Emit.toContent : Emit → Option String
  | .both s => some s
  | .contentOnly s => some s
  | .summaryOnly _ => none

/-- Projection of an event on the `summary` array. -/
def Emit.toSummary : Emit → Option String
  | .both s => some s
  | .summaryOnly s => some s
  | .contentOnly _ => none

/-- Projection of an event on the shared (`pushBoth`) channel. -/
def Emit.toShared : Emit → Option String
  | .both s => some s
  | _ => none

/-- The `content` line sequence of an event list. -/
def contentLines (events : List Emit) : List String := events.filterMap Emit.toContent

/-- The `summary` line sequence of an event list. -/
def summaryLines (events : List Emit) : List String := events.filterMap Emit.toSummary

/-- The lines pushed through `pushBoth`, in order. -/
def sharedLines (events : List Emit) : List String := events.filterMap Emit.toShared

/-- Accumulator of the per-provider warning loop
(part_001 lines 742-771): the pushed content lines and the three
collected offender lists. -/
structure ProviderLoopState where
  events : List Emit
  exceedingMaxPercentage : List (String × ℚ)
  exceedingMaxDuplication : List (String × ℚ)
  noIp : List String
deriving Repr

/-- The per-provider warning loop of `check` (part_001 lines 742-771).
The `providerDistributionHealthy` flag is threaded in the source as a
mutable boolean falsified exactly when one of the three lists receives a
push (and by the later SINGLE_REGION branch), so it is recovered from the
lists afterwards. -/
def providerWarnings (env : RenderEnv) (criteria : Criteria)
    (providerDistributions : List ProviderDistributionWithLocation) : ProviderLoopState :=
  providerDistributions.foldl (fun st provider =>
    let providerLink := generateLink provider.provider
      ("https://filfox.info/en/address/" ++ provider.provider)
    let st :=
      if provider.percentage > criteria.maxProviderDealPercentage then
        { st with
          events := st.events ++
            [Emit.contentOnly (env.emojiGet "warning" ++ " " ++ providerLink ++
              " has sealed " ++ env.toFixed2 (provider.percentage * 100) ++
              "% of total datacap."),
             Emit.contentOnly ""]
          exceedingMaxPercentage :=
            st.exceedingMaxPercentage ++ [(provider.provider, provider.percentage)] }
      else st
    let st :=
      if provider.duplication_percentage > criteria.maxDuplicationPercentage then
        { st with
          events := st.events ++
            [Emit.contentOnly (env.emojiGet "warning" ++ " " ++
              env.toFixed2 (provider.duplication_percentage * 100) ++
              "% of total deal sealed by " ++ providerLink ++ " are duplicate data."),
             Emit.contentOnly ""]
          exceedingMaxDuplication :=
            st.exceedingMaxDuplication ++ [(provider.provider, provider.duplication_percentage)] }
      else st
    let st :=
      if provider.country = none ∨ provider.country = some "" then
        { st with
          events := st.events ++
            [Emit.contentOnly (env.emojiGet "warning" ++ " " ++ providerLink ++
              " has unknown IP location."),
             Emit.contentOnly ""]
          noIp := st.noIp ++ [provider.provider] }
      else st
    st)
    { events := [], exceedingMaxPercentage := [], exceedingMaxDuplication := [], noIp := [] }

/-- The inputs of the document-assembly section of `check`
(part_001 lines 699-918), i.e. the locals computed by the earlier part of
`check`:  `applicationInfo` (line 581), the tier list (parameter,
line 562), `clientId` (line 697, `?? ['N/A']` already applied),
`addressGroup` (line 593), the per-address cache lookups used by the
Other Addresses section (line 720), the approver list of the issue
(line 714), the aggregated distributions (lines 607-626), the
pre-rendered CID-sharing rows (lines 668-684), and the retrievability
outcome (line 628). -/
structure CheckDocInputs where
  applicationInfo : ApplicationInfo
  criterias : List Criteria
  clientId : List String
  addressGroup : List String
  appInfoOf : String → Option ApplicationInfo
  approversMain : List (String × Nat)
  providerDistributions : List ProviderDistributionWithLocation
  replicationDistributions : List ReplicationDistribution
  cidSharingRows : List CidSharingRow
  retrievability : List Retrievability
  avgProviderScore : ℚ
  retrievabilityThreshold : ℚ

/-- The ordered push sequence of the document-assembly section of `check`
(part_001 lines 699-918), one event per `content.push` / `summary.push` /
`pushBoth` in source order.  (With an empty tier list the source reads
`criterias[...]` as `undefined` and crashes on first use; the model's
`getD` default is never reached by any claim.) -/
def checkEvents (env : RenderEnv) (I : CheckDocInputs) : List Emit :=
  let applicationInfo := I.applicationInfo
  let allocations := applicationInfo.numberOfAllocations
  let early := isEarlyAllocation I.criterias allocations
  let criteria := (selectCriteria I.criterias allocations).getD
    { maxProviderDealPercentage := 0, maxDuplicationPercentage := 0,
      lowReplicaThreshold := 0, maxPercentageForLowReplica := 0 }
  let providerDistributionRows :=
    I.providerDistributions.map (mkProviderDistributionRow env I.retrievability)
  let replicationDistributionRows :=
    I.replicationDistributions.map (mkReplicationDistributionRow env)
  -- lines 706-715
  [Emit.contentOnly ("## DataCap and CID Checker Report[^1] (" ++ env.nowHeader ++ ")"),
   Emit.summaryOnly "## DataCap and CID Checker Report Summary[^1]",
   Emit.contentOnly (" - Allocator: " ++ wrapInCode applicationInfo.verifier),
   Emit.contentOnly (" - Organization: " ++ wrapInCode applicationInfo.organizationName),
   Emit.contentOnly (" - Client: " ++ wrapInCode applicationInfo.clientAddress),
   Emit.contentOnly (" - Client ID: " ++ wrapInCode (I.clientId.headD "N/A")),
   Emit.contentOnly (" - Github Issue: [#" ++ (applicationInfo.issueNumber.getD "N/A") ++
     "](" ++ (applicationInfo.url.getD "undefined") ++ ")"),
   Emit.contentOnly "### Approvers",
   Emit.contentOnly (renderApprovers I.approversMain),
   Emit.contentOnly ""] ++
  -- lines 716-725
  (if I.addressGroup.length > 1 then
    [Emit.both "### Other Addresses[^2]"] ++
    (I.addressGroup.map (fun address =>
      if address ≠ applicationInfo.clientAddress then
        [Emit.both (" - " ++ linkifyAddress address ++ " - " ++
          linkifyApplicationInfo env.escape (I.appInfoOf address)),
         Emit.both ""]
      else [])).flatten
   else []) ++
  -- lines 726-741
  [Emit.contentOnly "",
   Emit.both "### Storage Provider Distribution",
   Emit.contentOnly "The below table shows the distribution of storage providers that have stored data for this client.",
   Emit.contentOnly "",
   Emit.contentOnly "If this is the first time a provider takes verified deal, it will be marked as `new`.",
   Emit.contentOnly "",
   Emit.contentOnly "For most of the datacap application, below restrictions should apply."] ++
  (if early then
    [Emit.contentOnly "",
     Emit.contentOnly ("**Since this is the " ++ env.ordinal (allocations + 1) ++
       " allocation, the following restrictions have been relaxed:**")]
   else []) ++
  [Emit.contentOnly (" - Storage provider should not exceed " ++
     env.toFixed0 (criteria.maxProviderDealPercentage * 100) ++ "% of total datacap."),
   Emit.contentOnly (" - Storage provider should not be storing duplicate data for more than " ++
     env.toFixed0 (criteria.maxDuplicationPercentage * 100) ++ "%."),
   Emit.contentOnly " - Storage provider should have published its public IP address.",
   Emit.contentOnly " - All storage providers should be located in different regions.",
   Emit.contentOnly ""] ++
  -- lines 742-771
  (let loop := providerWarnings env criteria I.providerDistributions
   loop.events ++
   -- lines 773-777
   (if loop.exceedingMaxPercentage.length > 0 then
     [Emit.summaryOnly (env.emojiGet "warning" ++ " " ++
        toString loop.exceedingMaxPercentage.length ++
        " storage providers sealed more than " ++
        env.toFixed0 (criteria.maxProviderDealPercentage * 100) ++ "% of total datacap - " ++
        String.intercalate ", " (loop.exceedingMaxPercentage.map (fun pp =>
          " " ++ generateLink pp.1 ("https://filfox.info/en/address/" ++ pp.1) ++ ": " ++
          env.toFixed2 (pp.2 * 100) ++ "%"))),
      Emit.summaryOnly ""]
    else []) ++
   -- lines 778-782
   (if loop.exceedingMaxDuplication.length > 0 then
     [Emit.summaryOnly (env.emojiGet "warning" ++ " " ++
        toString loop.exceedingMaxDuplication.length ++
        " storage providers sealed too much duplicate data - " ++
        String.intercalate ", " (loop.exceedingMaxDuplication.map (fun pp =>
          " " ++ generateLink pp.1 ("https://filfox.info/en/address/" ++ pp.1) ++ ": " ++
          env.toFixed2 (pp.2 * 100) ++ "%"))),
      Emit.summaryOnly ""]
    else []) ++
   -- lines 783-787
   (if loop.noIp.length > 0 then
     [Emit.summaryOnly (env.emojiGet "warning" ++ " " ++ toString loop.noIp.length ++
        " storage providers have unknown IP location - " ++
        String.intercalate ", " (loop.noIp.map (fun provider =>
          " " ++ generateLink provider ("https://filfox.info/en/address/" ++ provider)))),
      Emit.summaryOnly ""]
    else []) ++
   -- lines 788-793
   (if singleRegionCondition providerDistributionRows then
     [Emit.both (env.emojiGet "warning" ++ " All storage providers are located in the same region."),
      Emit.both ""]
    else []) ++
   -- lines 795-798
   (if loop.exceedingMaxPercentage.isEmpty && loop.exceedingMaxDuplication.isEmpty &&
       loop.noIp.isEmpty && !singleRegionCondition providerDistributionRows then
     [Emit.both (env.emojiGet "heavy_check_mark" ++ " Storage provider distribution looks healthy."),
      Emit.both ""]
    else [])) ++
  -- lines 800-808
  (let countWarningRetrievability :=
     (I.retrievability.filter (fun item => item.success_rate = 0)).length
   if countWarningRetrievability > 0 then
     [Emit.both (env.emojiGet "warning" ++ " " ++
        env.toFixed2 (((countWarningRetrievability : ℚ) / (I.retrievability.length : ℚ)) * 100) ++
        "% of Storage Providers have retrieval success rate equal to zero."),
      Emit.both ""]
   else []) ++
  -- lines 810-815
  (let retrievabilityThreeQuart :=
     (I.retrievability.filter (fun item => item.success_rate < 3/4)).length
   if I.retrievability.length > 0 && retrievabilityThreeQuart > 0 then
     [Emit.both (env.emojiGet "warning" ++ " " ++
        env.toFixed2 (((retrievabilityThreeQuart : ℚ) / (I.retrievability.length : ℚ)) * 100) ++
        "% of Storage Providers have retrieval success rate less than 75%."),
      Emit.both ""]
   else []) ++
  -- lines 817-820
  (if retrievabilityBelowThresholdWarning I.retrievability I.avgProviderScore
      I.retrievabilityThreshold then
     [Emit.both (env.emojiGet "warning" ++ " The average retrieval success rate is " ++
        env.toFixed2 (I.avgProviderScore * 100) ++ "%"),
      Emit.both ""]
   else []) ++
  -- lines 822-835
  [Emit.contentOnly (env.providerTable providerDistributionRows),
   Emit.both "",
   Emit.contentOnly ("<img src=\"" ++ env.providerDistributionImageUrl ++ "\"/>"),
   Emit.contentOnly "",
   -- lines 837-839
   Emit.both "### Deal Data Replication",
   Emit.contentOnly "The below table shows how each many unique data are replicated across storage providers.",
   Emit.contentOnly ""] ++
  -- lines 840-846
  (if criteria.maxPercentageForLowReplica < 1 then
    (if early then
      [Emit.contentOnly "",
       Emit.contentOnly ("**Since this is the " ++ env.ordinal (allocations + 1) ++
         " allocation, the following restrictions have been relaxed:**")]
     else []) ++
    [Emit.contentOnly ("- No more than " ++
       env.toFixed0 (criteria.maxPercentageForLowReplica * 100) ++
       "% of unique data are stored with less than " ++
       toString (criteria.lowReplicaThreshold + 1) ++ " providers.")]
   else []) ++
  [Emit.contentOnly ""] ++
  -- lines 848-859
  (let lowReplicaPercentage :=
     ((I.replicationDistributions.filter
        (fun distribution => distribution.num_of_replicas ≤ criteria.lowReplicaThreshold)).map
      (fun distribution => distribution.percentage)).foldl (fun a b => a + b) 0
   if lowReplicaPercentage > criteria.maxPercentageForLowReplica then
     [Emit.both (env.emojiGet "warning" ++ " " ++ env.toFixed2 (lowReplicaPercentage * 100) ++
        "% of deals are for data replicated across less than " ++
        toString (criteria.lowReplicaThreshold + 1) ++ " storage providers."),
      Emit.both ""]
   else
     [Emit.both (env.emojiGet "heavy_check_mark" ++ " Data replication looks healthy."),
      Emit.both ""]) ++
  -- lines 860-875
  [Emit.contentOnly (env.replicaTable replicationDistributionRows),
   Emit.contentOnly "",
   Emit.contentOnly ("<img src=\"" ++ env.replicationDistributionImageUrl ++ "\"/>"),
   Emit.both "",
   Emit.both "### Deal Data Shared with other Clients[^3]",
   Emit.contentOnly "The below table shows how many unique data are shared with other clients.",
   Emit.contentOnly "Usually different applications owns different data and should not resolve to the same CID.",
   Emit.contentOnly "",
   Emit.contentOnly "However, this could be possible if all below clients use same software to prepare for the exact same dataset or they belong to a series of LDN applications for the same dataset.",
   Emit.contentOnly ""] ++
  -- lines 876-895
  (if I.cidSharingRows.length > 0 then
    [Emit.contentOnly (env.emojiGet "warning" ++ " CID sharing has been observed."),
     Emit.summaryOnly (env.emojiGet "warning" ++ " CID sharing has been observed. (Top 3)"),
     Emit.both "",
     Emit.contentOnly (env.cidTable I.cidSharingRows)] ++
    (I.cidSharingRows.take 3).map (fun row =>
      Emit.summaryOnly ("- " ++ row.totalDealSize ++ " - " ++ row.otherClientAddress ++
        " - " ++ row.otherClientOrganizationName))
   else
    [Emit.both (env.emojiGet "heavy_check_mark" ++ " No CID sharing has been observed.")]) ++
  -- lines 897-903
  [Emit.both "",
   Emit.both "[^1]: To manually trigger this report, add a comment with text `checker:manualTrigger`",
   Emit.both "",
   Emit.both "[^2]: Deals from those addresses are combined into this report as they are specified with `checker:manualTrigger`",
   Emit.both "",
   Emit.both "[^3]: To manually trigger this report with deals from other related addresses, add a comment with text `checker:manualTrigger <other_address_1> <other_address_2> ...`",
   Emit.both "",
   -- lines 916-917
   Emit.summaryOnly "### Full report",
   Emit.summaryOnly ("Click " ++ generateLink "here" env.contentUrl ++
     " to view the CID Checker report.")]

/-- The full report document of `check` (part_001 line 904:
`content.join('\n')`). -/
def contentDoc (env : RenderEnv) (I : CheckDocInputs) : String :=
  String.intercalate "\n" (contentLines (checkEvents env I))

/-- The summary document of `check` (part_001 line 918:
`summary.join('\n')`). -/
def summaryDoc (env : RenderEnv) (I : CheckDocInputs) : String :=
  String.intercalate "\n" (summaryLines (checkEvents env I))

/-! ## Report retrieval (part_001 lines 60-69 and 921-947) -/

/-- The `ErrorTemplate` literal of `CidChecker`
(part_001 lines 60-65). -/
def ErrorTemplate : String :=
  "\n  ## DataCap and CID Checker Report[^1]\n  {message}\n\n  [^1]: To manually trigger this report, add a comment with text `checker:manualTrigger`\n  "

/-- `getErrorContent` (part_001 lines 67-69). -/
def getErrorContent (message : String) : String :=
  ErrorTemplate.replace "{message}" message

/-- The mixed result shape of `getLatestClientGeneratedReport`
(part_001 lines 934-947): the error branch returns the two-element array
`[errorDocument, undefined]`, the success branch returns
`rows[0]?.file_path`, a string or `undefined`. -/
inductive LatestReportResult where
  | errorPair (errorDocument : String)
  | filePath (p : Option String)
deriving Repr

/-- The mixed result shape of `getAllClientGeneratedReports`
(part_001 lines 921-932): the error branch returns the two-element array
`[errorDocument, undefined]`, the success branch the raw row array. -/
inductive AllReportsResult where
  | errorPair (errorDocument : String)
  | rows (rs : List GeneratedReportRow)
deriving Repr

/-- `getLatestClientGeneratedReport` (part_001 lines 934-947); the rows
of the `LatestGeneratedReportQuery` are the pure input `queryRows`. -/
def getLatestClientGeneratedReport (cache : AppInfoCache)
    (fetch : String → List VerifiedClient) (address : String)
    (queryRows : List GeneratedReportRow) : LatestReportResult :=
  match (findApplicationInfoForClient cache fetch address).1 with
  | none => .errorPair
      (getErrorContent "No application info found for this issue on https://datacapstats.io/clients.")
  | some _ => .filePath ((queryRows.head?).map (fun row => row.file_path))

/-- `getAllClientGeneratedReports` (part_001 lines 921-932). -/
def getAllClientGeneratedReports (cache : AppInfoCache)
    (fetch : String → List VerifiedClient) (address : String)
    (queryRows : List GeneratedReportRow) : AllReportsResult :=
  match (findApplicationInfoForClient cache fetch address).1 with
  | none => .errorPair
      (getErrorContent "No application info found for this issue on https://datacapstats.io/clients.")
  | some _ => .rows queryRows

/-! ## Helper lemmas -/

/-- The source's `reduce((acc, cur) => acc + parseFloat(cur.total_deal_size), 0)`
agrees with the mapped list sum. -/
theorem totalDealSize_eq_sum (rows : List ProviderDistribution) :
    totalDealSize rows = (rows.map (fun d => d.total_deal_size)).sum := by
  suffices h : ∀ (l : List ProviderDistribution) (a : ℚ),
      l.foldl (fun acc cur => acc + cur.total_deal_size) a =
        a + (l.map (fun d => d.total_deal_size)).sum by
    simpa [totalDealSize] using h rows 0
  intro l
  induction l with
  | nil => simp
  | cons d t ih => intro a; simp [List.foldl_cons, ih]; ring

/-- Distributing a common divisor over a mapped list sum. -/
theorem sum_map_div (rows : List ProviderDistribution) (t : ℚ) :
    (rows.map (fun d => d.total_deal_size / t)).sum =
      (rows.map (fun d => d.total_deal_size)).sum / t := by
  induction rows with
  | nil => simp
  | cons d rest ih => simp [ih, add_div]

/-- A non-empty list of rows with positive deal sizes has a positive
size sum. -/
theorem sum_sizes_pos (l : List ProviderDistribution) (hne : l ≠ [])
    (hpos : ∀ x ∈ l, 0 < x.total_deal_size) :
    0 < (l.map (fun d => d.total_deal_size)).sum := by
  induction l with
  | nil => exact absurd rfl hne
  | cons d t ih =>
    have h1 : 0 < d.total_deal_size := hpos d (by simp)
    cases t with
    | nil => simpa using h1
    | cons e t2 =>
      have h2 := ih (by simp) (fun x hx => hpos x (List.mem_cons_of_mem d hx))
      simp only [List.map_cons, List.sum_cons] at h2 ⊢
      linarith

/-- A non-empty list of rows with positive deal sizes has a positive
total. -/
theorem totalDealSize_pos (d : ProviderDistribution) (rest : List ProviderDistribution)
    (hpos : ∀ x ∈ d :: rest, 0 < x.total_deal_size) :
    0 < totalDealSize (d :: rest) := by
  rw [totalDealSize_eq_sum]
  exact sum_sizes_pos _ (by simp) hpos

/-- C4 helper: the accumulating pair of `calculateAvgProviderScore`
computes the two list sums. -/
theorem calculateAvg_foldl_eq (l : List Retrievability) (a b : ℚ) :
    l.foldl (fun acc r => (acc.1 + r.total_deal_size, acc.2 + r.success_rate * r.total_deal_size))
      (a, b) =
    (a + (l.map (fun r => r.total_deal_size)).sum,
     b + (l.map (fun r => r.success_rate * r.total_deal_size)).sum) := by
  induction l generalizing a b with
  | nil => simp
  | cons r t ih => simp [List.foldl_cons, ih]; constructor <;> ring

/-- The source's guarded average agrees with the spec's formula
everywhere (in ℚ, division by a zero denominator is 0, which is exactly
the source's guarded 0 result). -/
theorem calculateAvg_eq_weightedAvgSpec (l : List Retrievability) :
    calculateAvgProviderScore l = weightedAvgSpec l := by
  unfold calculateAvgProviderScore weightedAvgSpec
  rw [calculateAvg_foldl_eq]
  simp only [zero_add]
  by_cases h2 : (l.map (fun r => r.success_rate * r.total_deal_size)).sum = 0
  · simp [h2]
  · by_cases h1 : (l.map (fun r => r.total_deal_size)).sum = 0
    · simp [h1, h2]
    · simp [h1, h2]

/-! ## C3 — primary allocation record selection -/

/-- The keep-strictly-greater `reduce` accumulator of
`findApplicationInfoForClient`, abstracted over an integer valuation. -/
def pickLast {α : Type} (v : α → Int) (h : α) (t : List α) : α :=
  t.foldl (fun p c => if v p > v c then p else c) h

theorem pickLast_cons {α : Type} (v : α → Int) (h c : α) (t : List α) :
    pickLast v h (c :: t) = pickLast v (if v h > v c then h else c) t := rfl

/-- The keep-strictly-greater fold returns the *last* element attaining
the maximum valuation: the picked element splits the list so that every
element is bounded by it and everything strictly after it is strictly
smaller. -/
theorem pickLast_spec {α : Type} (v : α → Int) :
    ∀ (t : List α) (h : α),
      ∃ l₁ l₂,
        h :: t = l₁ ++ pickLast v h t :: l₂ ∧
        (∀ x ∈ h :: t, v x ≤ v (pickLast v h t)) ∧
        (∀ x ∈ l₂, v x < v (pickLast v h t)) := by
  intro t
  induction t with
  | nil =>
    intro h
    refine ⟨[], [], by simp [pickLast], ?_, by simp⟩
    intro x hx
    simp only [List.mem_singleton] at hx
    subst hx
    simp [pickLast]
  | cons c t' ih =>
    intro h
    rw [pickLast_cons]
    obtain ⟨l₁, l₂, hdec, hmax, hafter⟩ := ih (if v h > v c then h else c)
    have hhg : v h ≤ v (if v h > v c then h else c) := by
      by_cases hvc : v h > v c
      · rw [if_pos hvc]
      · rw [if_neg hvc]; omega
    have hcg : v c ≤ v (if v h > v c then h else c) := by
      by_cases hvc : v h > v c
      · rw [if_pos hvc]; omega
      · rw [if_neg hvc]
    have hgr : v (if v h > v c then h else c) ≤
        v (pickLast v (if v h > v c then h else c) t') := hmax _ (by simp)
    cases l₁ with
    | nil =>
      rw [List.nil_append] at hdec
      injection hdec with e1 e2
      have hvr : v (pickLast v (if v h > v c then h else c) t') =
          v (if v h > v c then h else c) := congrArg v e1.symm
      by_cases hvc : v h > v c
      · refine ⟨[], c :: t', ?_, ?_, ?_⟩
        · rw [List.nil_append, ← e1, if_pos hvc]
        · intro x hx
          rcases List.mem_cons.mp hx with rfl | hx
          · rw [hvr, if_pos hvc]
          · rcases List.mem_cons.mp hx with rfl | hx
            · rw [hvr, if_pos hvc]; omega
            · exact hmax x (List.mem_cons_of_mem _ hx)
        · intro x hx
          rcases List.mem_cons.mp hx with rfl | hx
          · rw [hvr, if_pos hvc]; omega
          · exact hafter x (e2 ▸ hx)
      · refine ⟨[h], t', ?_, ?_, ?_⟩
        · simp only [List.cons_append, List.nil_append]
          rw [← e1, if_neg hvc]
        · intro x hx
          rcases List.mem_cons.mp hx with rfl | hx
          · rw [hvr, if_neg hvc]; omega
          · rcases List.mem_cons.mp hx with rfl | hx
            · rw [hvr, if_neg hvc]
            · exact hmax x (List.mem_cons_of_mem _ hx)
        · intro x hx
          exact hafter x (e2 ▸ hx)
    | cons a m =>
      rw [List.cons_append] at hdec
      injection hdec with e1 e2
      refine ⟨h :: c :: m, l₂, ?_, ?_, ?_⟩
      · simp only [List.cons_append]
        exact congrArg (fun l => h :: c :: l) e2
      · intro x hx
        rcases List.mem_cons.mp hx with rfl | hx
        · exact le_trans hhg hgr
        · rcases List.mem_cons.mp hx with rfl | hx
          · exact le_trans hcg hgr
          · exact hmax x (List.mem_cons_of_mem _ hx)
      · exact hafter

/-- When every record's allowance parses, the `reduce` of
`findApplicationInfoForClient` (part_001 line 298) agrees with the
integer-valued `pickLast` fold. -/
theorem selectPrimary_fold_eq_pickLast (vOf : VerifiedClient → Int) :
    ∀ (t : List VerifiedClient) (h : VerifiedClient),
      (∀ x ∈ h :: t, parseIntJS x.initialAllowance = some (vOf x)) →
      (t.foldl (fun prev curr =>
        if jsGT (parseIntJS prev.initialAllowance) (parseIntJS curr.initialAllowance)
        then prev else curr) h) = pickLast vOf h t := by
  intro t
  induction t with
  | nil => intro h _; rfl
  | cons c t' ih =>
    intro h hall
    have hh := hall h (by simp)
    have hc := hall c (by simp)
    rw [List.foldl_cons, pickLast_cons]
    have hstep : (if jsGT (parseIntJS h.initialAllowance) (parseIntJS c.initialAllowance)
        then h else c) = (if vOf h > vOf c then h else c) := by
      rw [hh, hc]
      by_cases hvc : vOf h > vOf c <;> simp [jsGT, hvc]
    rw [hstep]
    apply ih
    intro x hx
    rcases List.mem_cons.mp hx with rfl | hx
    · by_cases hvc : vOf h > vOf c
      · simpa [hvc] using hh
      · simpa [hvc] using hc
    · exact hall x (List.mem_cons_of_mem h (List.mem_cons_of_mem c hx))

/-- C3 counterexample: two records tie at allowance 100 and the `reduce`
of part_001 line 298 returns the *second* (last encountered) one, not the
first as the claim states. -/
theorem appinfo_primary_tiebreak_counterexample :
    parseIntJS ("100" : String) = parseIntJS ("100" : String) ∧
    selectPrimary
        [⟨some "First", none, "V1", "100", []⟩, ⟨some "Second", none, "V2", "100", []⟩] =
      some ⟨some "Second", none, "V2", "100", []⟩ ∧
    selectPrimary
        [⟨some "First", none, "V1", "100", []⟩, ⟨some "Second", none, "V2", "100", []⟩] ≠
      some ⟨some "First", none, "V1", "100", []⟩ := by
  refine ⟨rfl, by decide, by decide⟩

/-- C3 amended: over records whose allowances parse,
`findApplicationInfoForClient` selects a record with the largest initial
allowance, and among ties for the largest it selects the *last*
encountered record: the picked record bounds every record's value, and
every record after it is strictly smaller. -/
theorem appinfo_primary_selection (vOf : VerifiedClient → Int)
    (hd : VerifiedClient) (tl : List VerifiedClient)
    (hall : ∀ x ∈ hd :: tl, parseIntJS x.initialAllowance = some (vOf x)) :
    ∃ r l₁ l₂,
      selectPrimary (hd :: tl) = some r ∧
      hd :: tl = l₁ ++ r :: l₂ ∧
      (∀ x ∈ hd :: tl, vOf x ≤ vOf r) ∧
      (∀ x ∈ l₂, vOf x < vOf r) := by
  obtain ⟨l₁, l₂, hdec, hmax, hafter⟩ := pickLast_spec vOf tl hd
  refine ⟨pickLast vOf hd tl, l₁, l₂, ?_, hdec, hmax, hafter⟩
  show some _ = _
  rw [selectPrimary_fold_eq_pickLast vOf tl hd hall]

/-- Witness for the amended C3 at the tied two-record input. -/
theorem appinfo_primary_selection_witness :
    (∀ x ∈ [(⟨some "First", none, "V1", "100", []⟩ : VerifiedClient),
             ⟨some "Second", none, "V2", "100", []⟩],
      parseIntJS x.initialAllowance = some ((fun _ => (100 : Int)) x)) ∧
    ∃ r l₁ l₂,
      selectPrimary [(⟨some "First", none, "V1", "100", []⟩ : VerifiedClient),
          ⟨some "Second", none, "V2", "100", []⟩] = some r ∧
      [(⟨some "First", none, "V1", "100", []⟩ : VerifiedClient),
          ⟨some "Second", none, "V2", "100", []⟩] = l₁ ++ r :: l₂ ∧
      (∀ x ∈ [(⟨some "First", none, "V1", "100", []⟩ : VerifiedClient),
          ⟨some "Second", none, "V2", "100", []⟩], (fun _ => (100 : Int)) x ≤ (fun _ => (100 : Int)) r) ∧
      (∀ x ∈ l₂, (fun _ => (100 : Int)) x < (fun _ => (100 : Int)) r) :=
  ⟨by decide,
   appinfo_primary_selection (fun _ => (100 : Int)) _ _ (by decide)⟩

/-! ## C2 — tier selection -/

/-- C2: for a non-empty tier list and `numberOfAllocations ≥ 1`, the tier
used by `check` (part_001 line 604) is
`criterias[min(criterias.length, numberOfAllocations) - 1]`. -/
theorem check_tier_selection (criterias : List Criteria) (allocations : Nat)
    (hne : criterias ≠ []) (hpos : 1 ≤ allocations) :
    selectCriteria criterias allocations =
      criterias[min criterias.length allocations - 1]? := by
  have hlen : 0 < criterias.length := List.length_pos.mpr hne
  unfold selectCriteria
  by_cases h : criterias.length > allocations - 1
  · rw [if_pos h]
    congr 1
    omega
  · rw [if_neg h]
    congr 1
    omega

/-- Witness for C2 at the spec's example: one configured tier and five
allocations select that single tier. -/
theorem check_tier_selection_witness :
    ([(⟨1, 1, 1, 1⟩ : Criteria)] ≠ []) ∧ 1 ≤ 5 ∧
    selectCriteria [(⟨1, 1, 1, 1⟩ : Criteria)] 5 =
      [(⟨1, 1, 1, 1⟩ : Criteria)][min [(⟨1, 1, 1, 1⟩ : Criteria)].length 5 - 1]? :=
  ⟨by simp, by omega, check_tier_selection _ 5 (by simp) (by omega)⟩

/-! ## C4 — provider percentage normalization -/

/-- C4: with positive per-row deal sizes (an invariant of the
`provider_distribution` query, whose `duplication_percentage` column
divides by `total_deal_size`), a positive total makes the computed
percentages sum to exactly 1 (hence within the spec's 1e-6 tolerance),
and a zero total means the row set is empty, in which case the pipeline's
guard (part_001 lines 630-632) signals "no active deals". -/
theorem provider_percentage_normalization (rows : List ProviderDistribution)
    (hpos : ∀ d ∈ rows, 0 < d.total_deal_size) :
    (0 < totalDealSize rows →
      ((getStorageProviderDistribution rows).map (fun d => d.percentage)).sum = 1 ∧
      |((getStorageProviderDistribution rows).map (fun d => d.percentage)).sum - 1| ≤
        1 / 1000000) ∧
    (totalDealSize rows = 0 →
      rows = [] ∧
      ∀ locEnv firstClientByProvider clientIds,
        aggregateProviders locEnv firstClientByProvider clientIds
          (getStorageProviderDistribution rows) = .ok [] ∧
        noActiveDealsGuard [] = true) := by
  constructor
  · intro htot
    have hsum : ((getStorageProviderDistribution rows).map (fun d => d.percentage)).sum = 1 := by
      unfold getStorageProviderDistribution
      rw [List.map_map]
      have : ((fun d : ProviderDistribution => d.percentage) ∘
          (fun d => { d with percentage := d.total_deal_size / totalDealSize rows })) =
          (fun d : ProviderDistribution => d.total_deal_size / totalDealSize rows) := rfl
      rw [this, sum_map_div, ← totalDealSize_eq_sum]
      exact div_self (ne_of_gt htot)
    exact ⟨hsum, by rw [hsum]; norm_num⟩
  · intro htot
    have hnil : rows = [] := by
      cases rows with
      | nil => rfl
      | cons d rest =>
        exact absurd htot (ne_of_gt (totalDealSize_pos d rest hpos))
    subst hnil
    exact ⟨rfl, fun _ _ _ => ⟨rfl, rfl⟩⟩

/-- Witness for C4: two rows of sizes 1 and 3 get percentages summing to
exactly 1. -/
theorem provider_percentage_normalization_witness :
    (∀ d ∈ [(⟨"f01", 1, 1, 0, 0⟩ : ProviderDistribution), ⟨"f02", 3, 1, 0, 0⟩],
      0 < d.total_deal_size) ∧
    (0 < totalDealSize [(⟨"f01", 1, 1, 0, 0⟩ : ProviderDistribution), ⟨"f02", 3, 1, 0, 0⟩]) ∧
    (((getStorageProviderDistribution
        [(⟨"f01", 1, 1, 0, 0⟩ : ProviderDistribution), ⟨"f02", 3, 1, 0, 0⟩]).map
      (fun d => d.percentage)).sum = 1 ∧
     |((getStorageProviderDistribution
        [(⟨"f01", 1, 1, 0, 0⟩ : ProviderDistribution), ⟨"f02", 3, 1, 0, 0⟩]).map
      (fun d => d.percentage)).sum - 1| ≤ 1 / 1000000) :=
  ⟨by decide,
   by norm_num [totalDealSize, List.foldl_cons, List.foldl_nil],
   (provider_percentage_normalization _ (by decide)).1
     (by norm_num [totalDealSize, List.foldl_cons, List.foldl_nil])⟩

/-! ## C5 — RETRIEVABILITY_BELOW_THRESHOLD -/

/-- C5: the RETRIEVABILITY_BELOW_THRESHOLD warning of `check`
(part_001 line 817) fires iff the joined retrievability list is non-empty
and the deal-size-weighted average success rate is strictly below the
threshold (with the spec's weighted-average formula, whose value is 0 on
an empty join or zero denominator); the spec's example (rates 0.1 and 0.9
at equal sizes 100) averages to exactly 1/2, and the default threshold is
the double 0.2 = 1/5. -/
theorem retrievability_below_threshold_iff :
    (∀ (pds : List ProviderDistributionWithLocation) (sd : List SparkSuccessRate)
       (threshold : ℚ),
      retrievabilityBelowThresholdWarning
          (providersRetrievabilityResult pds (.ok sd)).1
          (providersRetrievabilityResult pds (.ok sd)).2 threshold = true ↔
        (createRetrievability pds sd ≠ [] ∧
          weightedAvgSpec (createRetrievability pds sd) < threshold)) ∧
    calculateAvgProviderScore
      [⟨"A", 1/10, 100⟩, ⟨"B", 9/10, 100⟩] = 1/2 ∧
    weightedAvgSpec [⟨"A", 1/10, 100⟩, ⟨"B", 9/10, 100⟩] = 1/2 ∧
    defaultRetrievabilityThreshold = 1/5 := by
  refine ⟨?_, ?_, ?_, rfl⟩
  · intro pds sd threshold
    unfold providersRetrievabilityResult
    by_cases hempty : createRetrievability pds sd = []
    · simp [hempty, retrievabilityBelowThresholdWarning]
    · have hlen : (createRetrievability pds sd).length ≠ 0 := by
        simpa [List.length_eq_zero] using hempty
      simp only [if_neg hlen]
      unfold retrievabilityBelowThresholdWarning
      rw [calculateAvg_eq_weightedAvgSpec]
      simp [hempty, Nat.pos_of_ne_zero hlen]
  · rw [calculateAvg_eq_weightedAvgSpec]
    unfold weightedAvgSpec
    norm_num
  · unfold weightedAvgSpec
    norm_num

/-! ## C6 — SINGLE_REGION -/

/-- A list has at most one distinct element iff all its elements are
pairwise equal. -/
theorem dedup_length_le_one_iff {α : Type} [DecidableEq α] (l : List α) :
    l.dedup.length ≤ 1 ↔ ∀ a ∈ l, ∀ b ∈ l, a = b := by
  constructor
  · intro h a ha b hb
    have ha' : a ∈ l.dedup := List.mem_dedup.mpr ha
    have hb' : b ∈ l.dedup := List.mem_dedup.mpr hb
    cases hd : l.dedup with
    | nil => rw [hd] at ha'; simp at ha'
    | cons x t =>
      rw [hd] at ha' hb' h
      cases t with
      | nil =>
        simp only [List.mem_singleton] at ha' hb'
        rw [ha', hb']
      | cons y t2 => simp at h
  · intro h
    cases hd : l.dedup with
    | nil => simp
    | cons x t =>
      cases t with
      | nil => simp
      | cons y t2 =>
        exfalso
        have hx : x ∈ l := List.mem_dedup.mp (by rw [hd]; simp)
        have hy : y ∈ l := List.mem_dedup.mp (by rw [hd]; simp)
        have hnd := l.nodup_dedup
        rw [hd] at hnd
        have hxy : x ≠ y := by
          intro e
          subst e
          simp at hnd
        exact hxy (h x hx y hy)

/-- C6 amended: the SINGLE_REGION warning (part_001 line 788) fires
exactly when all provider rows carry the same rendered *location cell* —
the comma-joined location string plus the code-wrapped organization name
(part_001 line 650) — so equal {city, region, country} tuples alone do
not suffice when organization names differ; a single-provider client
always fires it. -/
theorem single_region_iff :
    (∀ (env : RenderEnv) (retriev : List Retrievability)
       (pds : List ProviderDistributionWithLocation),
      singleRegionCondition (pds.map (mkProviderDistributionRow env retriev)) = true ↔
        ∀ a ∈ pds, ∀ b ∈ pds,
          (mkProviderDistributionRow env retriev a).location =
            (mkProviderDistributionRow env retriev b).location) ∧
    (∀ (env : RenderEnv) (retriev : List Retrievability)
       (d : ProviderDistributionWithLocation),
      singleRegionCondition ([d].map (mkProviderDistributionRow env retriev)) = true) := by
  constructor
  · intro env retriev pds
    simp only [singleRegionCondition, List.map_map, decide_eq_true_eq]
    rw [dedup_length_le_one_iff]
    constructor
    · intro h a ha b hb
      exact h _ (List.mem_map_of_mem _ ha) _ (List.mem_map_of_mem _ hb)
    · intro h s hs t ht
      obtain ⟨a, ha, rfl⟩ := List.mem_map.mp hs
      obtain ⟨b, hb, rfl⟩ := List.mem_map.mp ht
      exact h a ha b hb
  · intro env retriev d
    simp [singleRegionCondition]

/-- C6 counterexample: two providers with the identical
{city, region, country} tuple but different organization names do *not*
fire SINGLE_REGION, against the claim's "emitted exactly when all
providers resolve to the same {city, region, country} tuple". -/
theorem single_region_counterexample :
    (([(⟨⟨"f01", 1, 1, 0, 1⟩, some "City", some "Region", some "US", none, none,
          some "OrgOne", false⟩ : ProviderDistributionWithLocation),
        ⟨⟨"f02", 1, 1, 0, 1⟩, some "City", some "Region", some "US", none, none,
          some "OrgTwo", false⟩].map
       (fun d => (d.city, d.region, d.country))).dedup.length ≤ 1) ∧
    singleRegionCondition
      ([(⟨⟨"f01", 1, 1, 0, 1⟩, some "City", some "Region", some "US", none, none,
           some "OrgOne", false⟩ : ProviderDistributionWithLocation),
         ⟨⟨"f02", 1, 1, 0, 1⟩, some "City", some "Region", some "US", none, none,
           some "OrgTwo", false⟩].map
        (mkProviderDistributionRow
          ⟨fun _ => "", fun s => s, fun _ => "1 GiB", fun n => toString n, fun _ => "25",
           fun _ => "25.00", "2024-01-01 00:00:00.000Z", fun _ => "", fun _ => "",
           fun _ => "", "", "", ""⟩ [])) = false := by
  decide

/-! ## C7 — localization of location-lookup failures -/

/-- The aggregated entry built for row `r` once its `getLocation` call is
known not to throw. -/
def aggregatedEntry (locEnv : String → LocationEnv)
    (firstClientByProvider : List FirstClientRow) (clientIds : List String)
    (r : ProviderDistribution) : ProviderDistributionWithLocation :=
  mkWithLocation r ((getLocation (locEnv r.provider)).toOption.getD none)
    (isNewOf firstClientByProvider clientIds r)

/-- When no provider's `getLocation` throws, the sequential aggregation
loop completes with one entry per row. -/
theorem aggregateProvidersRaw_ok (locEnv : String → LocationEnv)
    (firstClientByProvider : List FirstClientRow) (clientIds : List String)
    (rows : List ProviderDistribution)
    (hall : ∀ r ∈ rows, ∃ v, getLocation (locEnv r.provider) = .ok v) :
    aggregateProvidersRaw locEnv firstClientByProvider clientIds rows =
      .ok (rows.map (aggregatedEntry locEnv firstClientByProvider clientIds)) := by
  induction rows with
  | nil => rfl
  | cons r rest ih =>
    obtain ⟨v, hv⟩ := hall r (by simp)
    have ihh := ih (fun x hx => hall x (List.mem_cons_of_mem r hx))
    simp only [aggregateProvidersRaw, hv, ihh, List.map_cons, bind, Except.bind,
      aggregatedEntry, Except.toOption, Option.getD, pure, Except.pure]

/-- C7 amended: a location lookup that *resolves to no location*
(`getLocation` returns `null`: missing multiaddrs, an unresolvable
multiaddr, or all-bogon ips) is localized to its provider — the
aggregation completes with one entry per row and that provider's
location renders as "Unknown" — but this holds only when no lookup
*throws*; a thrown lookup (e.g. ipinfo failing after its retry budget)
rejects the whole aggregation (see the counterexample). -/
theorem location_failure_localized (locEnv : String → LocationEnv)
    (firstClientByProvider : List FirstClientRow) (clientIds : List String)
    (rows : List ProviderDistribution)
    (hall : ∀ r ∈ rows, ∃ v, getLocation (locEnv r.provider) = .ok v) :
    ∃ out,
      aggregateProviders locEnv firstClientByProvider clientIds rows = .ok out ∧
      out.length = rows.length ∧
      ∀ r ∈ rows, getLocation (locEnv r.provider) = .ok none →
        ∃ e ∈ out, e.provider = r.provider ∧ e.city = none ∧ e.region = none ∧
          e.country = none ∧ e.orgName = none ∧ renderLocation e = "Unknown" := by
  unfold aggregateProviders
  by_cases hlen : rows.length = 0
  · rw [if_pos hlen]
    have hnil : rows = [] := List.length_eq_zero.mp hlen
    subst hnil
    exact ⟨[], rfl, rfl, by simp⟩
  · rw [if_neg hlen, aggregateProvidersRaw_ok _ _ _ _ hall]
    refine ⟨_, rfl, ?_, ?_⟩
    · rw [(List.perm_insertionSort _ _).length_eq, List.length_map]
    · intro r hr hnone
      refine ⟨aggregatedEntry locEnv firstClientByProvider clientIds r, ?_, ?_, ?_, ?_, ?_, ?_, ?_⟩
      · exact ((List.perm_insertionSort _ _).mem_iff).mpr (List.mem_map_of_mem _ hr)
      · rfl
      · unfold aggregatedEntry; rw [hnone]; rfl
      · unfold aggregatedEntry; rw [hnone]; rfl
      · unfold aggregatedEntry; rw [hnone]; rfl
      · unfold aggregatedEntry; rw [hnone]; rfl
      · unfold aggregatedEntry; rw [hnone]; rfl

/-- Witness for the amended C7: one provider with no multiaddrs
(a tolerated lookup failure) and one with a resolved location; the
aggregation completes and the failed provider renders "Unknown". -/
theorem location_failure_localized_witness :
    (∀ r ∈ [(⟨"f01", 1, 1, 0, 1⟩ : ProviderDistribution), ⟨"f02", 1, 1, 0, 1⟩],
      ∃ v, getLocation
        ((fun p => if p = "f01" then
            (⟨.ok ⟨none⟩, fun _ => .ok [], fun _ => .ok ⟨none, some "City", some "US",
              some "Region", none, none⟩⟩ : LocationEnv)
          else
            ⟨.ok ⟨some ["maddr"]⟩, fun _ => .ok ["1.2.3.4"], fun _ => .ok ⟨none, some "City",
              some "US", some "Region", none, none⟩⟩) r.provider) = .ok v) ∧
    ∃ out,
      aggregateProviders
          (fun p => if p = "f01" then
            (⟨.ok ⟨none⟩, fun _ => .ok [], fun _ => .ok ⟨none, some "City", some "US",
              some "Region", none, none⟩⟩ : LocationEnv)
          else
            ⟨.ok ⟨some ["maddr"]⟩, fun _ => .ok ["1.2.3.4"], fun _ => .ok ⟨none, some "City",
              some "US", some "Region", none, none⟩⟩) [] []
          [(⟨"f01", 1, 1, 0, 1⟩ : ProviderDistribution), ⟨"f02", 1, 1, 0, 1⟩] = .ok out ∧
      out.length = [(⟨"f01", 1, 1, 0, 1⟩ : ProviderDistribution), ⟨"f02", 1, 1, 0, 1⟩].length ∧
      ∀ r ∈ [(⟨"f01", 1, 1, 0, 1⟩ : ProviderDistribution), ⟨"f02", 1, 1, 0, 1⟩],
        getLocation
          ((fun p => if p = "f01" then
              (⟨.ok ⟨none⟩, fun _ => .ok [], fun _ => .ok ⟨none, some "City", some "US",
                some "Region", none, none⟩⟩ : LocationEnv)
            else
              ⟨.ok ⟨some ["maddr"]⟩, fun _ => .ok ["1.2.3.4"], fun _ => .ok ⟨none, some "City",
                some "US", some "Region", none, none⟩⟩) r.provider) = .ok none →
        ∃ e ∈ out, e.provider = r.provider ∧ e.city = none ∧ e.region = none ∧
          e.country = none ∧ e.orgName = none ∧ renderLocation e = "Unknown" := by
  refine ⟨?_, location_failure_localized _ _ _ _ ?_⟩ <;>
  · intro r hr
    rcases List.mem_cons.mp hr with rfl | hr
    · exact ⟨none, rfl⟩
    · rcases List.mem_cons.mp hr with rfl | hr
      · exact ⟨some ⟨some "City", some "US", some "Region", none, none, "Unknown"⟩, rfl⟩
      · simp at hr

/-- C7 counterexample: a provider whose ipinfo lookup throws (retry
budget exhausted) rejects the whole aggregation — even the other,
successfully located provider's entry is lost — against the claim that
every location-lookup failure is localized. -/
theorem location_failure_aborts_counterexample :
    getLocation
        (⟨.ok ⟨some ["maddr"]⟩, fun _ => .ok ["1.2.3.4"], fun _ => .error ()⟩ : LocationEnv) =
      .error () ∧
    aggregateProviders
        (fun p => if p = "f01" then
          (⟨.ok ⟨none⟩, fun _ => .ok [], fun _ => .error ()⟩ : LocationEnv)
        else
          ⟨.ok ⟨some ["maddr"]⟩, fun _ => .ok ["1.2.3.4"], fun _ => .error ()⟩) [] []
        [(⟨"f01", 1, 1, 0, 1⟩ : ProviderDistribution), ⟨"f02", 1, 1, 0, 1⟩] =
      .error () :=
  ⟨rfl, rfl⟩

/-! ## C8 — cache idempotence -/

/-- After a `cacheSet` on a previously missing key, a `Map.get` for that
key finds the stored value. -/
theorem find?_cacheSet_self (cache : AppInfoCache) (k : String)
    (v : Option ApplicationInfo)
    (h : cache.find? (fun e => e.1 == k) = none) :
    (cacheSet cache k v).find? (fun e => e.1 == k) = some (k, v) := by
  unfold cacheSet
  rw [h]
  simp [List.find?_append, h]

/-- C8: resolving the same client twice is idempotent — the second
`findApplicationInfoForClient` call returns the same result, leaves the
cache unchanged, and makes zero upstream HTTP calls (both for found and
not-found first results). -/
theorem appinfo_resolution_idempotent (cache : AppInfoCache)
    (fetch : String → List VerifiedClient) (client : String) :
    findApplicationInfoForClient
        (findApplicationInfoForClient cache fetch client).2.1 fetch client =
      ((findApplicationInfoForClient cache fetch client).1,
       (findApplicationInfoForClient cache fetch client).2.1, 0) := by
  unfold findApplicationInfoForClient
  cases h : cache.find? (fun e => e.1 == client) with
  | some e => simp [h]
  | none =>
    cases hp : selectPrimary (fetch client) with
    | none => simp [h, hp, find?_cacheSet_self cache client none h]
    | some primary =>
      simp [h, hp,
        find?_cacheSet_self cache client (some (mkApplicationInfo client primary)) h]

/-! ## C9 — the otherAddresses mutation -/

/-- C9 counterexample: a client that resolves with an empty
`allowanceArray` (numberOfAllocations = 0) takes the early return of
part_001 lines 589-591, which precedes the push at line 595, so even
though `otherAddresses` does not contain the resolved client address it
is left unmutated — against the claim's "for every call". -/
theorem check_allocations_zero_counterexample :
    (["f1other"].contains "f1zero" = false) ∧
    (findApplicationInfoForClient []
        (fun _ => [⟨some "Org", none, "Verifier", "100", []⟩]) "f1zero").1 =
      some ⟨"f1zero", "Org", none, "Verifier", none, 0⟩ ∧
    checkOtherAddressesAfter (some "f1zero") []
        (fun _ => [⟨some "Org", none, "Verifier", "100", []⟩]) ["f1other"] =
      ["f1other"] ∧
    checkOtherAddressesAfter (some "f1zero") []
        (fun _ => [⟨some "Org", none, "Verifier", "100", []⟩]) ["f1other"] ≠
      ["f1other"] ++ ["f1zero"] := by
  decide

/-- Unfolding of `checkOtherAddressesAfter` at a parsed address. -/
theorem checkOtherAddressesAfter_some (address : String) (cache : AppInfoCache)
    (fetch : String → List VerifiedClient) (otherAddresses : List String) :
    checkOtherAddressesAfter (some address) cache fetch otherAddresses =
      match (findApplicationInfoForClient cache fetch address).1 with
      | none => otherAddresses
      | some applicationInfo =>
        if applicationInfo.numberOfAllocations = 0 then otherAddresses
        else addressGroupAfterCheck otherAddresses applicationInfo.clientAddress := rfl

/-- Unfolding of `checkOtherAddressesAfter` at a resolved client. -/
theorem checkOtherAddressesAfter_resolved (address : String) (cache : AppInfoCache)
    (fetch : String → List VerifiedClient) (otherAddresses : List String)
    (ai : ApplicationInfo)
    (hres : (findApplicationInfoForClient cache fetch address).1 = some ai) :
    checkOtherAddressesAfter (some address) cache fetch otherAddresses =
      if ai.numberOfAllocations = 0 then otherAddresses
      else addressGroupAfterCheck otherAddresses ai.clientAddress := by
  rw [checkOtherAddressesAfter_some, hres]

/-- C9 amended: `check` appends the resolved client address to the
caller's `otherAddresses` array in place (part_001 lines 593-596, via
the reference binding `const addressGroup = otherAddresses`) exactly on
the calls that reach the line-595 push: resolved application info with
`numberOfAllocations ≥ 1` and address not already present.  Every early
return preceding the push — unparseable issue address, unresolved
application info, or zero allocations — and the already-present case
leave the caller's array unchanged. -/
theorem check_mutation_scope :
    (∀ cache fetch otherAddresses,
      checkOtherAddressesAfter none cache fetch otherAddresses = otherAddresses) ∧
    (∀ address cache fetch otherAddresses,
      (findApplicationInfoForClient cache fetch address).1 = none →
      checkOtherAddressesAfter (some address) cache fetch otherAddresses =
        otherAddresses) ∧
    (∀ address cache fetch otherAddresses ai,
      (findApplicationInfoForClient cache fetch address).1 = some ai →
      ai.numberOfAllocations = 0 →
      checkOtherAddressesAfter (some address) cache fetch otherAddresses =
        otherAddresses) ∧
    (∀ address cache fetch otherAddresses ai,
      (findApplicationInfoForClient cache fetch address).1 = some ai →
      ai.numberOfAllocations ≠ 0 →
      otherAddresses.contains ai.clientAddress = false →
      checkOtherAddressesAfter (some address) cache fetch otherAddresses =
        otherAddresses ++ [ai.clientAddress]) ∧
    (∀ address cache fetch otherAddresses ai,
      (findApplicationInfoForClient cache fetch address).1 = some ai →
      ai.numberOfAllocations ≠ 0 →
      otherAddresses.contains ai.clientAddress = true →
      checkOtherAddressesAfter (some address) cache fetch otherAddresses =
        otherAddresses) := by
  refine ⟨fun cache fetch otherAddresses => rfl, ?_, ?_, ?_, ?_⟩
  · intro address cache fetch otherAddresses hres
    rw [checkOtherAddressesAfter_some, hres]
  · intro address cache fetch otherAddresses ai hres halloc
    rw [checkOtherAddressesAfter_resolved address cache fetch otherAddresses ai hres,
      if_pos halloc]
  · intro address cache fetch otherAddresses ai hres halloc habs
    rw [checkOtherAddressesAfter_resolved address cache fetch otherAddresses ai hres,
      if_neg halloc]
    have h' : ai.clientAddress ∉ otherAddresses := by simpa using habs
    simp [addressGroupAfterCheck, h']
  · intro address cache fetch otherAddresses ai hres halloc hpres
    rw [checkOtherAddressesAfter_resolved address cache fetch otherAddresses ai hres,
      if_neg halloc]
    have h' : ai.clientAddress ∈ otherAddresses := by simpa using hpres
    simp [addressGroupAfterCheck, h']

/-- Witness for the amended C9: a client resolving with one allocation
and an absent address gets appended. -/
theorem check_mutation_scope_witness :
    (findApplicationInfoForClient []
        (fun _ => [⟨some "Org", none, "Verifier", "100",
          [⟨some "https://github.com/org/repo/issues/42", "100"⟩]⟩]) "f1w").1 =
      some ⟨"f1w", "Org", some "https://github.com/org/repo/issues/42", "Verifier",
        some "42", 1⟩ ∧
    (⟨"f1w", "Org", some "https://github.com/org/repo/issues/42", "Verifier",
        some "42", 1⟩ : ApplicationInfo).numberOfAllocations ≠ 0 ∧
    (["f1other"].contains
      (⟨"f1w", "Org", some "https://github.com/org/repo/issues/42", "Verifier",
        some "42", 1⟩ : ApplicationInfo).clientAddress = false) ∧
    checkOtherAddressesAfter (some "f1w") []
        (fun _ => [⟨some "Org", none, "Verifier", "100",
          [⟨some "https://github.com/org/repo/issues/42", "100"⟩]⟩]) ["f1other"] =
      ["f1other"] ++
        [(⟨"f1w", "Org", some "https://github.com/org/repo/issues/42", "Verifier",
          some "42", 1⟩ : ApplicationInfo).clientAddress] :=
  ⟨by decide, by decide, by decide,
   check_mutation_scope.2.2.2.1 "f1w" []
     (fun _ => [⟨some "Org", none, "Verifier", "100",
       [⟨some "https://github.com/org/repo/issues/42", "100"⟩]⟩]) ["f1other"]
     ⟨"f1w", "Org", some "https://github.com/org/repo/issues/42", "Verifier",
       some "42", 1⟩ (by decide) (by decide) (by decide)⟩

/-! ## C1 — summary/full line consistency -/

/-- Lines pushed through the shared channel form an order-preserving
subsequence of both projections of any event list. -/
theorem sharedLines_sublist_both (events : List Emit) :
    (sharedLines events).Sublist (contentLines events) ∧
    (sharedLines events).Sublist (summaryLines events) := by
  induction events with
  | nil => exact ⟨List.Sublist.refl _, List.Sublist.refl _⟩
  | cons e t ih =>
    cases e with
    | both s =>
      refine ⟨?_, ?_⟩
      · show (s :: sharedLines t).Sublist (s :: contentLines t)
        exact ih.1.cons₂ s
      · show (s :: sharedLines t).Sublist (s :: summaryLines t)
        exact ih.2.cons₂ s
    | contentOnly s =>
      refine ⟨?_, ?_⟩
      · show (sharedLines t).Sublist (s :: contentLines t)
        exact ih.1.cons s
      · show (sharedLines t).Sublist (summaryLines t)
        exact ih.2
    | summaryOnly s =>
      refine ⟨?_, ?_⟩
      · show (sharedLines t).Sublist (contentLines t)
        exact ih.1
      · show (sharedLines t).Sublist (s :: summaryLines t)
        exact ih.2.cons s

/-- C1 amended: every line pushed through `pushBoth` appears verbatim in
both documents — the shared lines form an order-preserving subsequence
(hence a sub-multiset) of both the full document's and the summary's line
sequences.  The summary as a whole is *not* contained in the full
document: its own header, the aggregated offender digests, the top-3
CID-sharing digest and the closing "Full report" link are summary-only
(see the counterexample). -/
theorem summary_shared_lines_in_content (env : RenderEnv) (I : CheckDocInputs) :
    ((sharedLines (checkEvents env I)).Sublist (contentLines (checkEvents env I)) ∧
     (sharedLines (checkEvents env I)).Sublist (summaryLines (checkEvents env I))) ∧
    ∀ s ∈ sharedLines (checkEvents env I),
      s ∈ contentLines (checkEvents env I) ∧ s ∈ summaryLines (checkEvents env I) :=
  ⟨sharedLines_sublist_both _,
   fun _ hs => ⟨(sharedLines_sublist_both _).1.subset hs,
     (sharedLines_sublist_both _).2.subset hs⟩⟩

/-- A concrete rendering environment for the C1 counterexample, with the
library renderers fixed to representative constant outputs. -/
def sampleRenderEnv : RenderEnv :=
  { emojiGet := fun s => if s = "warning" then "⚠️" else
      if s = "heavy_check_mark" then "✔️" else ""
    escape := fun s => s
    xbytesIec := fun _ => "1 GiB"
    ordinal := fun n => toString n ++ "th"
    toFixed0 := fun _ => "25"
    toFixed2 := fun _ => "25.00"
    nowHeader := "2024-01-01 00:00:00.000Z"
    providerTable := fun _ => "| provider table |"
    replicaTable := fun _ => "| replica table |"
    cidTable := fun _ => "| cid table |"
    providerDistributionImageUrl := "https://example.org/p.png"
    replicationDistributionImageUrl := "https://example.org/r.png"
    contentUrl := "https://example.org/report.md" }

/-- A concrete document-assembly input for the C1 counterexample: one
located provider, no replication rows, no CID sharing, no retrievability
data. -/
def sampleCheckInputs : CheckDocInputs :=
  { applicationInfo := ⟨"f1client", "Org", some "https://github.com/org/repo/issues/7",
      "Verifier", some "7", 1⟩
    criterias := [⟨2, 2, 3, 2⟩]
    clientId := ["f01111"]
    addressGroup := ["f1client"]
    appInfoOf := fun _ => none
    approversMain := []
    providerDistributions := [⟨⟨"f01", 1, 1, 0, 1⟩, some "City", some "Region", some "US",
      none, none, some "Org", false⟩]
    replicationDistributions := []
    cidSharingRows := []
    retrievability := []
    avgProviderScore := 0
    retrievabilityThreshold := 1 }

/-- C1 counterexample: the summary line "### Full report"
(part_001 line 916) — like the summary's own header — never appears in
the full document, so the summary is not a sub-multiset of the full
document's lines. -/
theorem summary_line_missing_counterexample :
    "### Full report" ∈ summaryLines (checkEvents sampleRenderEnv sampleCheckInputs) ∧
    "### Full report" ∉ contentLines (checkEvents sampleRenderEnv sampleCheckInputs) := by
  decide

/-! ## C10 — mixed result shapes of the report getters -/

/-- C10: when no application info is found, both
`getLatestClientGeneratedReport` and `getAllClientGeneratedReports`
return the two-element `[errorDocument, undefined]` shape; on success the
former returns `rows[0]?.file_path` (a string or `undefined`) and the
latter the raw row array — values of different types per branch. -/
theorem generated_reports_result_shapes :
    (∀ cache fetch address queryRows,
      (findApplicationInfoForClient cache fetch address).1 = none →
      getLatestClientGeneratedReport cache fetch address queryRows =
        .errorPair (getErrorContent
          "No application info found for this issue on https://datacapstats.io/clients.") ∧
      getAllClientGeneratedReports cache fetch address queryRows =
        .errorPair (getErrorContent
          "No application info found for this issue on https://datacapstats.io/clients.")) ∧
    (∀ cache fetch address queryRows ai,
      (findApplicationInfoForClient cache fetch address).1 = some ai →
      getLatestClientGeneratedReport cache fetch address queryRows =
        .filePath ((queryRows.head?).map (fun row => row.file_path)) ∧
      getAllClientGeneratedReports cache fetch address queryRows = .rows queryRows) ∧
    (∀ doc p, LatestReportResult.errorPair doc ≠ LatestReportResult.filePath p) ∧
    (∀ doc rs, AllReportsResult.errorPair doc ≠ AllReportsResult.rows rs) := by
  refine ⟨?_, ?_, ?_, ?_⟩
  · intro cache fetch address queryRows h
    unfold getLatestClientGeneratedReport getAllClientGeneratedReports
    rw [h]
    exact ⟨rfl, rfl⟩
  · intro cache fetch address queryRows ai h
    unfold getLatestClientGeneratedReport getAllClientGeneratedReports
    rw [h]
    exact ⟨rfl, rfl⟩
  · intro doc p h
    exact LatestReportResult.noConfusion h
  · intro doc rs h
    exact AllReportsResult.noConfusion h

/-- Witness for C10: a concrete not-found lookup takes the error-pair
branch; a concrete successful lookup returns the raw rows. -/
theorem generated_reports_result_shapes_witness :
    getLatestClientGeneratedReport [] (fun _ => []) "f1none" [] =
      .errorPair (getErrorContent
        "No application info found for this issue on https://datacapstats.io/clients.") ∧
    getAllClientGeneratedReports []
        (fun _ => [⟨some "Org", none, "Verifier", "100",
          [⟨some "https://github.com/org/repo/issues/42", "100"⟩]⟩]) "f1some"
        [⟨"https://example.org/report.md"⟩] =
      .rows [⟨"https://example.org/report.md"⟩] :=
  ⟨(generated_reports_result_shapes.1 [] (fun _ => []) "f1none" [] (by decide)).1,
   (generated_reports_result_shapes.2.1 []
      (fun _ => [⟨some "Org", none, "Verifier", "100",
        [⟨some "https://github.com/org/repo/issues/42", "100"⟩]⟩]) "f1some"
      [⟨"https://example.org/report.md"⟩]
      ⟨"f1some", "Org", some "https://github.com/org/repo/issues/42", "Verifier",
        some "42", 1⟩ (by decide)).2⟩

end FilplusChecker
